import Mathlib

/-!
Shallow embedding of MonitorKeeper (src/MonitorKeeper.cpp): the per-window
placement record (`SavedWindowData`), the placement store (`InstanceData`),
and the event-driven capture/restore logic (`ProcessMonitors`,
`ProcessDesktopWindows`, `WinEventProcCallback`, the timer callbacks),
together with theorems settling the specification claims.

Modelling conventions:
  * `HWND` is a `Nat`, with `0` standing for `NULL`.
  * Window class strings (`TCHAR[40]` buffers compared with `lstrcmp`) are
    `String`s compared for equality.
  * `WINDOWPLACEMENT` keeps the fields the program reads or writes
    (`length`, `flags`, `showCmd`, `rcNormalPosition`) plus the min/max
    point pair it copies around.  The C++ default-constructed
    `SavedWindowData` leaves its `m_windowPlacement` array uninitialized;
    the program treats an entry as valid exactly when
    `length == sizeof(WINDOWPLACEMENT)`, so the uninitialized entry is
    modelled with `length = 0` (invalid).
  * Host-environment calls (`RealGetWindowClass`, `GetWindowPlacement`,
    `IsWindow`, `IsWindowVisible`, `GetParent`, `GetWindowLong`,
    `EnumDesktopWindows`, `GetSystemMetrics(SM_CMONITORS)`) are a `WinEnv`
    record of pure functions.
  * `SetWindowPlacement` calls are modelled as a call log: a list of
    `(hwnd, placement)` pairs in issue order.
-/

namespace MonitorKeeper

/-! ### Windows API constants (values from WinUser.h) -/

def MAX_MONITORS : Int := 5
def MIN_MONITORTORESTORE : Int := 2

def SW_NORMAL : Nat := 1
def SW_SHOWMINIMIZED : Nat := 2
def SW_MAXIMIZE : Nat := 3
def SW_SHOWNOACTIVATE : Nat := 4
def SW_MINIMIZE : Nat := 6
def SW_SHOWMINNOACTIVE : Nat := 7

def WPF_ASYNCWINDOWPLACEMENT : Nat := 4

/-- `sizeof(WINDOWPLACEMENT)`: the concrete byte count is irrelevant, only
equality with it matters (the validity test on a bucket). -/
def WINDOWPLACEMENT_SIZE : Nat := 44

def WS_OVERLAPPEDWINDOW : Nat := 0x00CF0000
def WS_EX_APPWINDOW : Nat := 0x00040000
def WS_EX_NOACTIVATE : Nat := 0x08000000
def EVENT_SYSTEM_MOVESIZEEND : Nat := 0x000B
def EVENT_OBJECT_LOCATIONCHANGE : Nat := 0x800B

/-! ### Data model -/

structure Rect where
  left : Int
  top : Int
  right : Int
  bottom : Int
deriving DecidableEq, Repr

structure Point where
  x : Int
  y : Int
deriving DecidableEq, Repr

structure WINDOWPLACEMENT where
  length : Nat
  flags : Nat
  showCmd : Nat
  ptMinPosition : Point
  ptMaxPosition : Point
  rcNormalPosition : Rect
deriving DecidableEq, Repr

/-- A default-constructed (uninitialized) placement: `length = 0` makes it
fail the `length == sizeof(WINDOWPLACEMENT)` validity test, like the
indeterminate memory of the freshly `new`-ed array entries. -/
def uninitPlacement : WINDOWPLACEMENT :=
  { length := 0, flags := 0, showCmd := 0
    ptMinPosition := ⟨0, 0⟩, ptMaxPosition := ⟨0, 0⟩
    rcNormalPosition := ⟨0, 0, 0, 0⟩ }

/-- The number of placement buckets: `MAX_MONITORS - MIN_MONITORTORESTORE + 1 = 4`. -/
def NUM_BUCKETS : Nat := 4

/-- One record of the store: `class SavedWindowData`. -/
structure SavedWindowData where
  m_nUnusedCount : Int
  m_windowPlacement : List WINDOWPLACEMENT
  m_hwnd : Nat
  m_wndClass : String
deriving DecidableEq, Repr

/-- The `SavedWindowData` default constructor: empty class, `NULL` handle,
unused count 1, placement array uninitialized. -/
def SavedWindowData.init : SavedWindowData :=
  { m_nUnusedCount := 1
    m_windowPlacement := List.replicate NUM_BUCKETS uninitPlacement
    m_hwnd := 0
    m_wndClass := "" }

instance : Inhabited SavedWindowData := ⟨SavedWindowData.init⟩

/-- The host windowing environment consumed by the core. -/
structure WinEnv where
  /-- `RealGetWindowClass` -/
  windowClass : Nat → String
  /-- `GetWindowPlacement` result for a handle -/
  windowPlacement : Nat → WINDOWPLACEMENT
  /-- `IsWindow` -/
  isWindow : Nat → Bool
  /-- `IsWindowVisible` -/
  isWindowVisible : Nat → Bool
  /-- `GetParent` (0 = no parent) -/
  getParent : Nat → Nat
  /-- `GetWindowLong(hwnd, GWL_STYLE)` -/
  style : Nat → Nat
  /-- `GetWindowLong(hwnd, GWL_EXSTYLE)` -/
  exStyle : Nat → Nat
  /-- the handles `EnumDesktopWindows` delivers, in order -/
  desktopWindows : List Nat
  /-- `GetSystemMetrics(SM_CMONITORS)` -/
  monitors : Int

/-! ### SavedWindowData operations -/

/-- `SavedWindowData::SetData`.  Note the source sets `m_hwnd`,
`m_nUnusedCount` and `m_wndClass` BEFORE the monitor-count range check, so
those fields change even on the `false` (skipped) path; only the placement
bucket write is guarded by the range check.  `GetWindowPlacement` fills the
struct whose `length` was set to `sizeof(WINDOWPLACEMENT)` beforehand. -/
def SavedWindowData.SetData (env : WinEnv) (d : SavedWindowData)
    (hwnd : Nat) (NumMonitors : Int) : SavedWindowData × Bool :=
  let d1 : SavedWindowData :=
    { d with m_hwnd := hwnd, m_nUnusedCount := 0
             m_wndClass := env.windowClass hwnd }
  if NumMonitors < MIN_MONITORTORESTORE ∨ NumMonitors > MAX_MONITORS then
    (d1, false)
  else
    let idx := (NumMonitors - MIN_MONITORTORESTORE).toNat
    let captured := { env.windowPlacement hwnd with length := WINDOWPLACEMENT_SIZE }
    ({ d1 with m_windowPlacement := d1.m_windowPlacement.set idx captured }, true)

/-- `SavedWindowData::RestoreWindow`.  Returns the updated record (the
source mutates the stored `WINDOWPLACEMENT` in place) and the list of
`SetWindowPlacement` calls issued, in order. -/
def SavedWindowData.RestoreWindow (env : WinEnv) (d : SavedWindowData)
    (NumMonitors : Int) : SavedWindowData × List (Nat × WINDOWPLACEMENT) :=
  if NumMonitors ≥ MIN_MONITORTORESTORE ∧ NumMonitors ≤ MAX_MONITORS then
    let idx := (NumMonitors - MIN_MONITORTORESTORE).toNat
    let place0 := d.m_windowPlacement.getD idx uninitPlacement
    if env.isWindow d.m_hwnd ∧ place0.length = WINDOWPLACEMENT_SIZE then
      let szTempClass := env.windowClass d.m_hwnd
      if szTempClass = d.m_wndClass then
        let place1 := { place0 with flags := WPF_ASYNCWINDOWPLACEMENT }
        if place1.showCmd = SW_MAXIMIZE then
          let placeA := { place1 with showCmd := SW_SHOWNOACTIVATE }
          let placeB := { placeA with showCmd := SW_MAXIMIZE }
          ({ d with m_windowPlacement := d.m_windowPlacement.set idx placeB },
           [(d.m_hwnd, placeA), (d.m_hwnd, placeB)])
        else if place1.showCmd = SW_MINIMIZE ∨ place1.showCmd = SW_SHOWMINIMIZED then
          let placeA := { place1 with showCmd := SW_SHOWMINNOACTIVE }
          ({ d with m_windowPlacement := d.m_windowPlacement.set idx placeA },
           [(d.m_hwnd, placeA)])
        else if place1.showCmd = SW_NORMAL then
          let placeA := { place1 with showCmd := SW_SHOWNOACTIVATE }
          ({ d with m_windowPlacement := d.m_windowPlacement.set idx placeA },
           [(d.m_hwnd, placeA)])
        else
          ({ d with m_windowPlacement := d.m_windowPlacement.set idx place1 },
           [(d.m_hwnd, place1)])
      else (d, [])
    else (d, [])
  else (d, [])

/-! ### InstanceData (the placement store) -/

structure InstanceData where
  _WindowData : List SavedWindowData
  _NumMonitors : Int
  InChangingState : Bool
deriving DecidableEq, Repr

/-- The `InstanceData` constructor: 32 default records, monitor count 1,
not transitioning. -/
def InstanceData.init : InstanceData :=
  { _WindowData := List.replicate 32 SavedWindowData.init
    _NumMonitors := 1
    InChangingState := false }

/-- `InstanceData::TagWindowsUnused`, per record. -/
def tagRec (d : SavedWindowData) : SavedWindowData :=
  if d.m_hwnd ≠ 0 ∧ d.m_nUnusedCount < 100 then
    { d with m_nUnusedCount := d.m_nUnusedCount + 1 }
  else d

/-- `InstanceData::TagWindowsUnused`: the loop over `_WindowData`. -/
def InstanceData.TagWindowsUnused (s : InstanceData) : InstanceData :=
  { s with _WindowData := s._WindowData.map tagRec }

/-- The loop body of `InstanceData::RestoreWindowPositions`, over the list
of records; accumulates the `SetWindowPlacement` call log in order. -/
def restoreAllRecs (env : WinEnv) (monitors : Int) :
    List SavedWindowData → List SavedWindowData × List (Nat × WINDOWPLACEMENT)
  | [] => ([], [])
  | d :: rest =>
    let hd := if d.m_hwnd ≠ 0 ∧ d.m_nUnusedCount ≤ 2
              then d.RestoreWindow env monitors else (d, [])
    let tl := restoreAllRecs env monitors rest
    (hd.1 :: tl.1, hd.2 ++ tl.2)

/-- `InstanceData::RestoreWindowPositions`. -/
def InstanceData.RestoreWindowPositions (env : WinEnv) (s : InstanceData)
    (monitors : Int) : InstanceData × List (Nat × WINDOWPLACEMENT) :=
  let r := restoreAllRecs env monitors s._WindowData
  ({ s with _WindowData := r.1 }, r.2)

/-- First index of the list satisfying `p` — the meaning of the C++
`for (i = 0; i < _WindowDataLength; i++) if (p) return &_WindowData[i];`
scan loops in `FindWindowSlot`. -/
def firstIdx {α : Type} (p : α → Bool) : List α → Option Nat
  | [] => none
  | a :: rest => if p a then some 0 else (firstIdx p rest).map (· + 1)

/-- `InstanceData::FindWindowSlot`.  The returned `Nat` is the index of the
slot (the source returns a pointer `&_WindowData[i]`); growth replaces the
array by a copy extended with 32 default-constructed records. -/
def InstanceData.FindWindowSlot (s : InstanceData) (hwnd : Nat) :
    InstanceData × Nat :=
  match firstIdx (fun d => d.m_hwnd == hwnd) s._WindowData with
  | some i => (s, i)
  | none =>
    match firstIdx (fun d => d.m_hwnd == 0 || decide (d.m_nUnusedCount > 2))
        s._WindowData with
    | some i => (s, i)
    | none =>
      ({ s with _WindowData :=
            s._WindowData ++ List.replicate 32 SavedWindowData.init },
       s._WindowData.length)

/-! ### Event-level functions -/

/-- `SaveWindowsCallback`: eligibility filter, then find-or-create a slot
and capture.  (The `wsprintf`/`LogMessage` debug output is dropped.) -/
def SaveWindowsCallback (env : WinEnv) (s : InstanceData) (hwnd : Nat) :
    InstanceData :=
  if env.isWindowVisible hwnd ∧ env.getParent hwnd = 0 then
    if ((env.style hwnd &&& WS_OVERLAPPEDWINDOW ≠ 0 ∨
         env.exStyle hwnd &&& WS_EX_APPWINDOW ≠ 0) ∧
        env.exStyle hwnd &&& WS_EX_NOACTIVATE = 0) then
      let r := s.FindWindowSlot hwnd
      let d := (r.1._WindowData.getD r.2 SavedWindowData.init).SetData env hwnd
                 env.monitors
      { r.1 with _WindowData := r.1._WindowData.set r.2 d.1 }
    else s
  else s

/-- `ProcessMonitors`: the debounced display-change handler.  Returns the
new store state and the `SetWindowPlacement` call log of the restore pass
(empty when no pass ran). -/
def ProcessMonitors (env : WinEnv) (s : InstanceData) :
    InstanceData × List (Nat × WINDOWPLACEMENT) :=
  let monitors := env.monitors
  let r := if monitors > 1 ∧ s._NumMonitors ≠ monitors
           then s.RestoreWindowPositions env monitors
           else (s, [])
  ({ r.1 with _NumMonitors := monitors, InChangingState := false }, r.2)

/-- `ProcessDesktopWindows`: the snapshot sweep.  Bails out when the
observed monitor count differs from the stored one; otherwise marks every
record stale and re-captures each enumerated desktop window. -/
def ProcessDesktopWindows (env : WinEnv) (s : InstanceData) : InstanceData :=
  if env.monitors ≠ s._NumMonitors then s
  else (env.desktopWindows).foldl (SaveWindowsCallback env) s.TagWindowsUnused

/-! ### The event/timer state machine (WndProc + hooks + timers) -/

/-- System state: the store plus the two single-shot timers (`SetTimer`
with a fixed id re-arms the same slot; `KillTimer` in each callback makes
them one-shot). -/
structure SysState where
  inst : InstanceData
  saveTimerArmed : Bool
  restoreTimerArmed : Bool
deriving DecidableEq, Repr

/-- The external events driving the core. -/
inductive Event where
  /-- `WM_DISPLAYCHANGE` in `WndProc` -/
  | displayChange
  /-- `WinEventProcCallback(hwnd, dwEvent)` -/
  | winEvent (hwnd : Nat) (dwEvent : Nat)
  /-- the 200ms save timer fires (`SaveTimerCallback`) -/
  | saveTimerFire
  /-- the 500ms restore timer fires (`TimerCallback`) -/
  | restoreTimerFire
deriving DecidableEq, Repr

/-- One step of the event loop.  `env` is the host environment as observed
during this step (it may differ between steps: monitors get plugged and
unplugged). -/
def step (env : WinEnv) (st : SysState) : Event → SysState
  | .displayChange =>
      { st with inst := { st.inst with InChangingState := true }
                restoreTimerArmed := true }
  | .winEvent hwnd dwEvent =>
      if st.inst.InChangingState then st
      else if hwnd ≠ 0 ∧ (dwEvent = EVENT_SYSTEM_MOVESIZEEND ∨
                          dwEvent = EVENT_OBJECT_LOCATIONCHANGE) then
        { st with saveTimerArmed := true }
      else st
  | .saveTimerFire =>
      if st.saveTimerArmed then
        { st with inst := ProcessDesktopWindows env st.inst
                  saveTimerArmed := false }
      else st
  | .restoreTimerFire =>
      if st.restoreTimerArmed then
        { st with inst := (ProcessMonitors env st.inst).1
                  restoreTimerArmed := false }
      else st

end MonitorKeeper

namespace MonitorKeeper

/-! ### Helper lemmas about `firstIdx` -/

lemma firstIdx_some_spec {α : Type} (d : α) (p : α → Bool) :
    ∀ (l : List α) (i : Nat), firstIdx p l = some i →
      i < l.length ∧ p (l.getD i d) = true ∧ ∀ j, j < i → p (l.getD j d) = false := by
  intro l
  induction l with
  | nil => intro i h; simp [firstIdx] at h
  | cons a rest ih =>
    intro i h
    by_cases hp : p a
    · have hi : i = 0 := by
        simp only [firstIdx, if_pos hp] at h
        exact (Option.some_inj.mp h).symm
      subst hi
      exact ⟨Nat.succ_pos _, by simpa using hp,
        fun j hj => absurd hj (Nat.not_lt_zero j)⟩
    · rcases hfi : firstIdx p rest with _ | i'
      · simp only [firstIdx, if_neg hp, hfi, Option.map_none'] at h
        exact Option.noConfusion h
      · simp only [firstIdx, if_neg hp, hfi, Option.map_some', Option.some_inj] at h
        subst h
        obtain ⟨h1, h2, h3⟩ := ih i' hfi
        refine ⟨Nat.succ_lt_succ h1, by simpa using h2, ?_⟩
        intro j hj
        cases j with
        | zero => simpa using hp
        | succ j' => simpa using h3 j' (Nat.lt_of_succ_lt_succ hj)

lemma firstIdx_none_spec {α : Type} (d : α) (p : α → Bool) :
    ∀ (l : List α), firstIdx p l = none →
      ∀ j, j < l.length → p (l.getD j d) = false := by
  intro l
  induction l with
  | nil => intro _ j hj; simp at hj
  | cons a rest ih =>
    intro h j hj
    by_cases hp : p a
    · simp only [firstIdx, if_pos hp] at h
      exact Option.noConfusion h
    · simp only [firstIdx, if_neg hp] at h
      cases j with
      | zero => simpa using hp
      | succ j' =>
        rcases hfi : firstIdx p rest with _ | i'
        · simpa using ih hfi j' (Nat.lt_of_succ_lt_succ hj)
        · rw [hfi] at h; simp at h

end MonitorKeeper

namespace MonitorKeeper

/-! ### Concrete fixtures -/

/-- A plain environment: every handle is a live, visible, top-level
overlapped "Notepad" window; one monitor; nothing enumerated. -/
def envPlain : WinEnv :=
  { windowClass := fun _ => "Notepad"
    windowPlacement := fun _ => uninitPlacement
    isWindow := fun _ => true
    isWindowVisible := fun _ => true
    getParent := fun _ => 0
    style := fun _ => WS_OVERLAPPEDWINDOW
    exStyle := fun _ => 0
    desktopWindows := []
    monitors := 1 }

/-- A valid captured placement for the 2-monitor bucket. -/
def wpNormal : WINDOWPLACEMENT :=
  { length := WINDOWPLACEMENT_SIZE, flags := 0, showCmd := SW_NORMAL
    ptMinPosition := ⟨0, 0⟩, ptMaxPosition := ⟨0, 0⟩
    rcNormalPosition := ⟨10, 20, 310, 420⟩ }

/-- A live record for window 7 ("Notepad") with a valid 2-monitor snapshot. -/
def dNotepad : SavedWindowData :=
  { m_nUnusedCount := 0
    m_windowPlacement := [wpNormal, uninitPlacement, uninitPlacement, uninitPlacement]
    m_hwnd := 7
    m_wndClass := "Notepad" }

/-- Environment reporting 2 monitors. -/
def envDecrease : WinEnv := { envPlain with monitors := 2 }

/-- A store that last saw 3 monitors and tracks one live window. -/
def sThreeMon : InstanceData :=
  { _WindowData := [dNotepad], _NumMonitors := 3, InChangingState := false }

/-! ### C1 -/

/-- C1 counterexample: with `currentMonitorCount = 3` and an externally
reported count of 2 (a monitor-count DECREASE), `ProcessMonitors` does run
a restore pass and issues placement applications, contrary to the claim
that a decrease never triggers a restore pass. -/
theorem C1_counterexample :
    sThreeMon._NumMonitors = 3 ∧ envDecrease.monitors = 2 ∧
    (ProcessMonitors envDecrease sThreeMon).2 ≠ [] := by decide

/-- C1 (amended): the restore pass runs exactly when the externally
reported count is greater than 1 AND differs from `currentMonitorCount` —
so a decrease to a count of 2 or more (e.g. 3 monitors to 2) does trigger
a restore pass; only transitions to a single monitor, or to an unchanged
count, never do. -/
theorem C1_restore_on_any_change (env : WinEnv) (s : InstanceData) :
    (env.monitors ≤ 1 ∨ env.monitors = s._NumMonitors →
      ProcessMonitors env s =
        ({ s with _NumMonitors := env.monitors, InChangingState := false }, [])) ∧
    (env.monitors > 1 → env.monitors ≠ s._NumMonitors →
      ProcessMonitors env s =
        ({ (s.RestoreWindowPositions env env.monitors).1 with
            _NumMonitors := env.monitors, InChangingState := false },
         (s.RestoreWindowPositions env env.monitors).2)) := by
  constructor
  · intro h
    have hc : ¬(env.monitors > 1 ∧ s._NumMonitors ≠ env.monitors) := by
      rcases h with h | h
      · intro hc; omega
      · intro hc; exact hc.2 h.symm
    simp only [ProcessMonitors, if_neg hc]
  · intro h1 h2
    have hc : env.monitors > 1 ∧ s._NumMonitors ≠ env.monitors :=
      ⟨h1, fun he => h2 he.symm⟩
    simp only [ProcessMonitors, if_pos hc]

/-- C1 witness: the amended theorem applied to the concrete 3-to-2
decrease. -/
theorem C1_witness :
    ProcessMonitors envDecrease sThreeMon =
      ({ (sThreeMon.RestoreWindowPositions envDecrease envDecrease.monitors).1 with
          _NumMonitors := envDecrease.monitors, InChangingState := false },
       (sThreeMon.RestoreWindowPositions envDecrease envDecrease.monitors).2) :=
  (C1_restore_on_any_change envDecrease sThreeMon).2 (by decide) (by decide)

/-! ### C2 -/

/-- C2 counterexample: `capture(win, 1)` on a fresh record reports skipped
but does NOT leave the record unchanged: it sets `m_hwnd` to the handle,
resets `m_nUnusedCount` from 1 to 0, and overwrites `m_wndClass`. -/
theorem C2_counterexample :
    (SavedWindowData.SetData envPlain SavedWindowData.init 7 1).2 = false ∧
    (SavedWindowData.SetData envPlain SavedWindowData.init 7 1).1 ≠
      SavedWindowData.init ∧
    (SavedWindowData.SetData envPlain SavedWindowData.init 7 1).1.m_hwnd = 7 ∧
    SavedWindowData.init.m_hwnd = 0 ∧
    (SavedWindowData.SetData envPlain SavedWindowData.init 7 1).1.m_nUnusedCount = 0 ∧
    SavedWindowData.init.m_nUnusedCount = 1 := by decide

/-- C2 (amended): for `monitorCount` outside `[2, MAX_MONITORS]`, `capture`
reports skipped and leaves every snapshot bucket unchanged, but it still
sets the record's identity to the handle, resets `staleCount` to 0, and
overwrites `classTag` with the handle's current class. -/
theorem C2_out_of_range_capture (env : WinEnv) (d : SavedWindowData)
    (hwnd : Nat) (m : Int)
    (h : m < MIN_MONITORTORESTORE ∨ m > MAX_MONITORS) :
    SavedWindowData.SetData env d hwnd m =
      ({ d with m_hwnd := hwnd, m_nUnusedCount := 0
                m_wndClass := env.windowClass hwnd }, false) := by
  simp only [SavedWindowData.SetData, if_pos h]

/-- C2 witness: the amended theorem at `monitorCount = 6` on a fresh
record. -/
theorem C2_witness :
    SavedWindowData.SetData envPlain SavedWindowData.init 7 6 =
      ({ SavedWindowData.init with
          m_hwnd := 7, m_nUnusedCount := 0
          m_wndClass := envPlain.windowClass 7 }, false) :=
  C2_out_of_range_capture envPlain SavedWindowData.init 7 6 (Or.inr (by decide))

/-! ### C5 -/

/-- C5: if the class tag currently reported for the record's handle differs
from the stored `classTag`, `restore` issues no placement application and
leaves the record unchanged (skipped). -/
theorem C5_class_mismatch_skips (env : WinEnv) (d : SavedWindowData) (m : Int)
    (h : env.windowClass d.m_hwnd ≠ d.m_wndClass) :
    d.RestoreWindow env m = (d, []) := by
  simp only [SavedWindowData.RestoreWindow, if_neg h]
  split
  · split <;> rfl
  · rfl

/-- A record whose stored class tag ("Calculator") disagrees with what the
environment now reports for handle 7 ("Notepad"): the handle was recycled. -/
def dRecycled : SavedWindowData := { dNotepad with m_wndClass := "Calculator" }

/-- C5 witness: the theorem applied to the recycled-handle record. -/
theorem C5_witness :
    SavedWindowData.RestoreWindow envPlain dRecycled 2 = (dRecycled, []) :=
  C5_class_mismatch_skips envPlain dRecycled 2 (by decide)

/-! ### C10 -/

/-- C10: every run of the debounced display-change handler unconditionally
stores the freshly observed monitor count into `_NumMonitors` and clears
`InChangingState`, whether or not a restore pass ran. -/
theorem C10_handler_resets_state (env : WinEnv) (s : InstanceData) :
    (ProcessMonitors env s).1._NumMonitors = env.monitors ∧
    (ProcessMonitors env s).1.InChangingState = false :=
  ⟨rfl, rfl⟩

end MonitorKeeper

namespace MonitorKeeper

/-! ### C4: staleness monotonicity -/

/-- The record at index `i` of the store (default-constructed when out of
range, matching the physical array's unreached slots). -/
def recAt (s : InstanceData) (i : Nat) : SavedWindowData :=
  s._WindowData.getD i SavedWindowData.init

lemma tagRec_init : tagRec SavedWindowData.init = SavedWindowData.init := by decide

lemma getD_map_tagRec (l : List SavedWindowData) (i : Nat) :
    (l.map tagRec).getD i SavedWindowData.init =
      tagRec (l.getD i SavedWindowData.init) := by
  induction l generalizing i with
  | nil => simp [tagRec_init]
  | cons a rest ih =>
    cases i with
    | zero => simp
    | succ i' => simpa using ih i'

lemma recAt_tag (s : InstanceData) (i : Nat) :
    recAt s.TagWindowsUnused i = tagRec (recAt s i) :=
  getD_map_tagRec s._WindowData i

lemma tagRec_facts (d : SavedWindowData) :
    d.m_nUnusedCount ≤ (tagRec d).m_nUnusedCount ∧
    ((tagRec d).m_nUnusedCount ≤ max d.m_nUnusedCount 100) ∧
    (tagRec d).m_hwnd = d.m_hwnd ∧
    (d.m_hwnd = 0 → (tagRec d).m_nUnusedCount = d.m_nUnusedCount) := by
  unfold tagRec
  by_cases hc : d.m_hwnd ≠ 0 ∧ d.m_nUnusedCount < 100
  · obtain ⟨h1, h2⟩ := hc
    rw [if_pos ⟨h1, h2⟩]
    refine ⟨?_, ?_, rfl, fun h0 => absurd h0 h1⟩
    · show d.m_nUnusedCount ≤ d.m_nUnusedCount + 1
      omega
    · show d.m_nUnusedCount + 1 ≤ max d.m_nUnusedCount 100
      exact le_trans (by omega) (le_max_right _ _)
  · rw [if_neg hc]
    exact ⟨le_refl _, le_max_left _ _, rfl, fun _ => rfl⟩

/-- C4: over any number `n` of `markAllStale` (`TagWindowsUnused`) calls,
no record's `staleCount` ever decreases; a count that starts at most 100
stays at most 100 (saturation, no wraparound); and a record with empty
identity (`NULL` handle) is never incremented. -/
theorem C4_staleness_monotone (s : InstanceData) (i n : Nat) :
    (recAt s i).m_nUnusedCount ≤
      (recAt (InstanceData.TagWindowsUnused^[n] s) i).m_nUnusedCount ∧
    ((recAt s i).m_nUnusedCount ≤ 100 →
      (recAt (InstanceData.TagWindowsUnused^[n] s) i).m_nUnusedCount ≤ 100) ∧
    ((recAt s i).m_hwnd = 0 →
      (recAt (InstanceData.TagWindowsUnused^[n] s) i).m_nUnusedCount =
        (recAt s i).m_nUnusedCount) := by
  induction n with
  | zero => exact ⟨le_refl _, fun h => h, fun _ => rfl⟩
  | succ n ih =>
    obtain ⟨ih1, ih2, ih3⟩ := ih
    rw [Function.iterate_succ_apply', recAt_tag]
    set dn := recAt (InstanceData.TagWindowsUnused^[n] s) i with hdn
    obtain ⟨t1, t2, t3, t4⟩ := tagRec_facts dn
    refine ⟨le_trans ih1 t1, fun h => ?_, fun h0 => ?_⟩
    · have := ih2 h
      omega
    · have hh : dn.m_hwnd = 0 := by
        have : ∀ m : Nat, (recAt (InstanceData.TagWindowsUnused^[m] s) i).m_hwnd =
            (recAt s i).m_hwnd := by
          intro m
          induction m with
          | zero => rfl
          | succ m ihm =>
            rw [Function.iterate_succ_apply', recAt_tag]
            rw [(tagRec_facts _).2.2.1, ihm]
        rw [hdn, this n, h0]
      rw [t4 hh, ih3 h0]

/-- C4 witness: five sweeps over the concrete stores — counts do not
decrease, stay at most 100, and the empty slot of a fresh store is never
incremented. -/
theorem C4_witness :
    ((recAt sThreeMon 0).m_nUnusedCount ≤
      (recAt (InstanceData.TagWindowsUnused^[5] sThreeMon) 0).m_nUnusedCount) ∧
    ((recAt (InstanceData.TagWindowsUnused^[5] sThreeMon) 0).m_nUnusedCount ≤ 100) ∧
    ((recAt (InstanceData.TagWindowsUnused^[5] InstanceData.init) 3).m_nUnusedCount =
      (recAt InstanceData.init 3).m_nUnusedCount) :=
  ⟨(C4_staleness_monotone sThreeMon 0 5).1,
   (C4_staleness_monotone sThreeMon 0 5).2.1 (by decide),
   (C4_staleness_monotone InstanceData.init 3 5).2.2 (by decide)⟩

end MonitorKeeper

namespace MonitorKeeper

/-! ### C6 and C9: show-state handling of `RestoreWindow` -/

/-- C6: when restore validation succeeds for bucket `p`:
a saved "maximized" snapshot produces exactly two placement applications,
first "show, do not activate" with the saved rectangle, then "maximized";
a saved "minimized" snapshot one application as "minimized, do not
activate"; a saved "normal" snapshot one as "show, do not activate". -/
theorem C6_two_phase_maximize (env : WinEnv) (d : SavedWindowData) (m : Int)
    (p : WINDOWPLACEMENT)
    (hm : MIN_MONITORTORESTORE ≤ m ∧ m ≤ MAX_MONITORS)
    (hp : d.m_windowPlacement.getD (m - MIN_MONITORTORESTORE).toNat
            uninitPlacement = p)
    (hw : env.isWindow d.m_hwnd = true)
    (hlen : p.length = WINDOWPLACEMENT_SIZE)
    (hcls : env.windowClass d.m_hwnd = d.m_wndClass) :
    (p.showCmd = SW_MAXIMIZE →
      (d.RestoreWindow env m).2 =
        [(d.m_hwnd, { p with flags := WPF_ASYNCWINDOWPLACEMENT
                             showCmd := SW_SHOWNOACTIVATE }),
         (d.m_hwnd, { p with flags := WPF_ASYNCWINDOWPLACEMENT
                             showCmd := SW_MAXIMIZE })]) ∧
    ((p.showCmd = SW_MINIMIZE ∨ p.showCmd = SW_SHOWMINIMIZED) →
      (d.RestoreWindow env m).2 =
        [(d.m_hwnd, { p with flags := WPF_ASYNCWINDOWPLACEMENT
                             showCmd := SW_SHOWMINNOACTIVE })]) ∧
    (p.showCmd = SW_NORMAL →
      (d.RestoreWindow env m).2 =
        [(d.m_hwnd, { p with flags := WPF_ASYNCWINDOWPLACEMENT
                             showCmd := SW_SHOWNOACTIVATE })]) := by
  have hv : env.isWindow d.m_hwnd = true ∧ p.length = WINDOWPLACEMENT_SIZE :=
    ⟨hw, hlen⟩
  simp only [SavedWindowData.RestoreWindow, hp, if_pos hm, if_pos hv,
    if_pos hcls]
  refine ⟨fun hcmd => ?_, fun hcmd => ?_, fun hcmd => ?_⟩
  · rw [if_pos hcmd]
  · have hne : ¬p.showCmd = SW_MAXIMIZE := by
      rcases hcmd with h | h <;> (rw [h]; decide)
    rw [if_neg hne, if_pos hcmd]
  · have hne : ¬p.showCmd = SW_MAXIMIZE := by rw [hcmd]; decide
    have hne2 : ¬(p.showCmd = SW_MINIMIZE ∨ p.showCmd = SW_SHOWMINIMIZED) := by
      rw [hcmd]; decide
    rw [if_neg hne, if_neg hne2, if_pos hcmd]

/-- A placement captured maximized. -/
def wpMax : WINDOWPLACEMENT := { wpNormal with showCmd := SW_MAXIMIZE }

/-- A record for window 7 whose 2-monitor snapshot was captured maximized. -/
def dMax : SavedWindowData :=
  { dNotepad with m_windowPlacement :=
      [wpMax, uninitPlacement, uninitPlacement, uninitPlacement] }

/-- C6 witness: the two-phase apply on the concrete maximized record. -/
theorem C6_witness :
    (dMax.RestoreWindow envPlain 2).2 =
      [(dMax.m_hwnd, { wpMax with flags := WPF_ASYNCWINDOWPLACEMENT
                                  showCmd := SW_SHOWNOACTIVATE }),
       (dMax.m_hwnd, { wpMax with flags := WPF_ASYNCWINDOWPLACEMENT
                                  showCmd := SW_MAXIMIZE })] :=
  (C6_two_phase_maximize envPlain dMax 2 wpMax
    (by decide) (by decide) (by decide) (by decide) (by decide)).1 (by decide)

/-- C9: a successful restore mutates the stored snapshot itself: the
bucket's flags are overwritten with the async-apply flag and, for a saved
minimized or normal show-state, the stored show-state is rewritten in
place to a value different from what capture stored. -/
theorem C9_restore_mutates_snapshot (env : WinEnv) (d : SavedWindowData)
    (m : Int) (p : WINDOWPLACEMENT)
    (hm : MIN_MONITORTORESTORE ≤ m ∧ m ≤ MAX_MONITORS)
    (hp : d.m_windowPlacement.getD (m - MIN_MONITORTORESTORE).toNat
            uninitPlacement = p)
    (hw : env.isWindow d.m_hwnd = true)
    (hlen : p.length = WINDOWPLACEMENT_SIZE)
    (hcls : env.windowClass d.m_hwnd = d.m_wndClass) :
    ((p.showCmd = SW_MINIMIZE ∨ p.showCmd = SW_SHOWMINIMIZED) →
      (d.RestoreWindow env m).1 =
        { d with m_windowPlacement := d.m_windowPlacement.set (m - MIN_MONITORTORESTORE).toNat ({ p with flags := WPF_ASYNCWINDOWPLACEMENT, showCmd := SW_SHOWMINNOACTIVE }) } ∧
      SW_SHOWMINNOACTIVE ≠ p.showCmd) ∧
    (p.showCmd = SW_NORMAL →
      (d.RestoreWindow env m).1 =
        { d with m_windowPlacement := d.m_windowPlacement.set (m - MIN_MONITORTORESTORE).toNat ({ p with flags := WPF_ASYNCWINDOWPLACEMENT, showCmd := SW_SHOWNOACTIVATE }) } ∧
      SW_SHOWNOACTIVATE ≠ p.showCmd) := by
  have hv : env.isWindow d.m_hwnd = true ∧ p.length = WINDOWPLACEMENT_SIZE :=
    ⟨hw, hlen⟩
  simp only [SavedWindowData.RestoreWindow, hp, if_pos hm, if_pos hv,
    if_pos hcls]
  refine ⟨fun hcmd => ⟨?_, ?_⟩, fun hcmd => ⟨?_, ?_⟩⟩
  · have hne : ¬p.showCmd = SW_MAXIMIZE := by
      rcases hcmd with h | h <;> (rw [h]; decide)
    rw [if_neg hne, if_pos hcmd]
  · rcases hcmd with h | h <;> (rw [h]; decide)
  · have hne : ¬p.showCmd = SW_MAXIMIZE := by rw [hcmd]; decide
    have hne2 : ¬(p.showCmd = SW_MINIMIZE ∨ p.showCmd = SW_SHOWMINIMIZED) := by
      rw [hcmd]; decide
    rw [if_neg hne, if_neg hne2, if_pos hcmd]
  · rw [hcmd]; decide

/-- A placement captured minimized. -/
def wpMinzd : WINDOWPLACEMENT := { wpNormal with showCmd := SW_SHOWMINIMIZED }

/-- A record for window 7 whose 2-monitor snapshot was captured minimized. -/
def dMin : SavedWindowData :=
  { dNotepad with m_windowPlacement :=
      [wpMinzd, uninitPlacement, uninitPlacement, uninitPlacement] }

/-- C9 witness: restoring the concrete minimized record rewrites the
stored bucket in place. -/
theorem C9_witness :
    (dMin.RestoreWindow envPlain 2).1 =
      { dMin with m_windowPlacement := dMin.m_windowPlacement.set ((2 : Int) - MIN_MONITORTORESTORE).toNat ({ wpMinzd with flags := WPF_ASYNCWINDOWPLACEMENT, showCmd := SW_SHOWMINNOACTIVE }) } ∧
    SW_SHOWMINNOACTIVE ≠ wpMinzd.showCmd :=
  (C9_restore_mutates_snapshot envPlain dMin 2 wpMinzd
    (by decide) (by decide) (by decide) (by decide) (by decide)).1 (by decide)

end MonitorKeeper

namespace MonitorKeeper

/-! ### C3: FindWindowSlot search order, reclamation and growth -/

/-- C3: `FindWindowSlot` returns (1) the first record whose identity equals
the handle when one exists (store untouched); otherwise (2) the first
record with `NULL` identity or `staleCount > 2` (store untouched);
otherwise (3) it grows the storage by exactly 32 default slots, preserving
every existing record, and returns the slot at the old capacity boundary.
In every case the returned index is in bounds — never a null reference. -/
theorem C3_find_or_create_slot (s : InstanceData) (hwnd : Nat) :
    ((s.FindWindowSlot hwnd).2 < (s.FindWindowSlot hwnd).1._WindowData.length) ∧
    ((∃ j, j < s._WindowData.length ∧ (recAt s j).m_hwnd = hwnd) →
      (s.FindWindowSlot hwnd).1 = s ∧
      (recAt s (s.FindWindowSlot hwnd).2).m_hwnd = hwnd ∧
      ∀ j, j < (s.FindWindowSlot hwnd).2 → (recAt s j).m_hwnd ≠ hwnd) ∧
    ((∀ j, j < s._WindowData.length → (recAt s j).m_hwnd ≠ hwnd) →
      (∃ j, j < s._WindowData.length ∧
        ((recAt s j).m_hwnd = 0 ∨ (recAt s j).m_nUnusedCount > 2)) →
      (s.FindWindowSlot hwnd).1 = s ∧
      ((recAt s (s.FindWindowSlot hwnd).2).m_hwnd = 0 ∨
        (recAt s (s.FindWindowSlot hwnd).2).m_nUnusedCount > 2) ∧
      ∀ j, j < (s.FindWindowSlot hwnd).2 →
        ¬((recAt s j).m_hwnd = 0 ∨ (recAt s j).m_nUnusedCount > 2)) ∧
    ((∀ j, j < s._WindowData.length → (recAt s j).m_hwnd ≠ hwnd) →
      (∀ j, j < s._WindowData.length →
        ¬((recAt s j).m_hwnd = 0 ∨ (recAt s j).m_nUnusedCount > 2)) →
      (s.FindWindowSlot hwnd).1._WindowData =
        s._WindowData ++ List.replicate 32 SavedWindowData.init ∧
      (s.FindWindowSlot hwnd).2 = s._WindowData.length) := by
  rcases h1 : firstIdx (fun d => d.m_hwnd == hwnd) s._WindowData with _ | i
  · rcases h2 : firstIdx
        (fun d => d.m_hwnd == 0 || decide (d.m_nUnusedCount > 2))
        s._WindowData with _ | i
    · -- growth case
      have heq : s.FindWindowSlot hwnd =
          ({ s with _WindowData :=
              s._WindowData ++ List.replicate 32 SavedWindowData.init },
           s._WindowData.length) := by
        simp only [InstanceData.FindWindowSlot, h1, h2]
      rw [heq]
      have hnone1 := firstIdx_none_spec SavedWindowData.init _ _ h1
      have hnone2 := firstIdx_none_spec SavedWindowData.init _ _ h2
      refine ⟨?_, ?_, ?_, fun _ _ => ⟨rfl, rfl⟩⟩
      · show s._WindowData.length <
          (s._WindowData ++ List.replicate 32 SavedWindowData.init).length
        simp
      · rintro ⟨j, hj, hmj⟩
        have := hnone1 j hj
        simp only [beq_iff_eq] at this
        exact absurd hmj (by simpa [recAt] using this)
      · rintro _ ⟨j, hj, hrj⟩
        have := hnone2 j hj
        exact absurd hrj (by simpa [recAt] using this)
    · -- reuse case
      have heq : s.FindWindowSlot hwnd = (s, i) := by
        simp only [InstanceData.FindWindowSlot, h1, h2]
      rw [heq]
      have hnone1 := firstIdx_none_spec SavedWindowData.init _ _ h1
      obtain ⟨hlt, hp, hmin⟩ := firstIdx_some_spec SavedWindowData.init _ _ _ h2
      refine ⟨hlt, ?_, fun _ _ => ⟨rfl, ?_, ?_⟩, fun _ hnor => ?_⟩
      · rintro ⟨j, hj, hmj⟩
        have := hnone1 j hj
        exact absurd hmj (by simpa [recAt] using this)
      · simpa [recAt] using hp
      · intro j hj
        have := hmin j hj
        simpa [recAt] using this
      · exact absurd (by simpa [recAt] using hp) (hnor i hlt)
  · -- exact-match case
    have heq : s.FindWindowSlot hwnd = (s, i) := by
      simp only [InstanceData.FindWindowSlot, h1]
    rw [heq]
    obtain ⟨hlt, hp, hmin⟩ := firstIdx_some_spec SavedWindowData.init _ _ _ h1
    refine ⟨hlt, fun _ => ⟨rfl, ?_, ?_⟩, fun hnom _ => ?_, fun hnom _ => ?_⟩
    · simpa [recAt] using hp
    · intro j hj
      have := hmin j hj
      simpa [recAt] using this
    · exact absurd (by simpa [recAt] using hp) (hnom i hlt)
    · exact absurd (by simpa [recAt] using hp) (hnom i hlt)

/-- A full store: slot 0 live, slot 1 stale (`staleCount = 3`). -/
def sReuse : InstanceData :=
  { _WindowData := [dNotepad, { dNotepad with m_hwnd := 8, m_nUnusedCount := 3 }]
    _NumMonitors := 2
    InChangingState := false }

/-- C3 witness: a record with `staleCount = 3` is reclaimed in preference
to growing storage when a new handle (9) is looked up. -/
theorem C3_witness :
    (sReuse.FindWindowSlot 9).1 = sReuse ∧
    ((recAt sReuse (sReuse.FindWindowSlot 9).2).m_hwnd = 0 ∨
      (recAt sReuse (sReuse.FindWindowSlot 9).2).m_nUnusedCount > 2) := by
  have h := (C3_find_or_create_slot sReuse 9).2.2.1 (by decide)
    ⟨1, by decide, Or.inr (by decide)⟩
  exact ⟨h.1, h.2.1⟩

end MonitorKeeper

namespace MonitorKeeper

/-! ### C7: no capture mid-transition -/

/-- The snapshot buckets of the record at index `i`. -/
def bucketsAt (s : InstanceData) (i : Nat) : List WINDOWPLACEMENT :=
  (recAt s i).m_windowPlacement

lemma tagRec_buckets (d : SavedWindowData) :
    (tagRec d).m_windowPlacement = d.m_windowPlacement := by
  unfold tagRec; split <;> rfl

lemma bucketsAt_tag (s : InstanceData) (i : Nat) :
    bucketsAt s.TagWindowsUnused i = bucketsAt s i := by
  simp [bucketsAt, recAt_tag, tagRec_buckets]

lemma getD_replicate_init (n i : Nat) :
    (List.replicate n SavedWindowData.init).getD i SavedWindowData.init =
      SavedWindowData.init := by
  induction n generalizing i with
  | zero => rfl
  | succ n ih =>
    cases i with
    | zero => rfl
    | succ i' => simp only [List.replicate_succ, List.getD_cons_succ]; exact ih i'

lemma getD_append_growth (l : List SavedWindowData) (i : Nat) :
    ((l ++ List.replicate 32 SavedWindowData.init).getD i
        SavedWindowData.init).m_windowPlacement =
      (l.getD i SavedWindowData.init).m_windowPlacement := by
  induction l generalizing i with
  | nil =>
    rw [List.nil_append, getD_replicate_init]
    cases i <;> rfl
  | cons a rest ih =>
    cases i with
    | zero => rfl
    | succ i' => simpa using ih i'

lemma set_preserves_buckets (l : List SavedWindowData) (k i : Nat)
    (d' : SavedWindowData)
    (h : d'.m_windowPlacement =
      (l.getD k SavedWindowData.init).m_windowPlacement) :
    ((l.set k d').getD i SavedWindowData.init).m_windowPlacement =
      (l.getD i SavedWindowData.init).m_windowPlacement := by
  induction l generalizing k i with
  | nil => simp
  | cons a rest ih =>
    cases k with
    | zero =>
      cases i with
      | zero => simpa using h
      | succ i' => rfl
    | succ k' =>
      cases i with
      | zero => rfl
      | succ i' => simpa using ih k' i' (by simpa using h)

lemma setData_out_of_range_buckets (env : WinEnv) (d : SavedWindowData)
    (hwnd : Nat) (m : Int)
    (h : m < MIN_MONITORTORESTORE ∨ m > MAX_MONITORS) :
    ((SavedWindowData.SetData env d hwnd m).1).m_windowPlacement =
      d.m_windowPlacement := by
  simp only [SavedWindowData.SetData, if_pos h]

lemma findSlot_buckets (s : InstanceData) (hwnd : Nat) (i : Nat) :
    bucketsAt (s.FindWindowSlot hwnd).1 i = bucketsAt s i := by
  cases h1 : firstIdx (fun d => d.m_hwnd == hwnd) s._WindowData with
  | some j => simp only [InstanceData.FindWindowSlot, h1]
  | none =>
    cases h2 : firstIdx
        (fun d => d.m_hwnd == 0 || decide (d.m_nUnusedCount > 2))
        s._WindowData with
    | some j => simp only [InstanceData.FindWindowSlot, h1, h2]
    | none =>
      simp only [InstanceData.FindWindowSlot, h1, h2]
      exact getD_append_growth s._WindowData i

lemma saveCb_buckets (env : WinEnv) (s : InstanceData) (hwnd : Nat) (i : Nat)
    (hm : env.monitors < MIN_MONITORTORESTORE ∨ env.monitors > MAX_MONITORS) :
    bucketsAt (SaveWindowsCallback env s hwnd) i = bucketsAt s i := by
  simp only [SaveWindowsCallback]
  split
  · split
    · have hb : ((((s.FindWindowSlot hwnd).1._WindowData.getD
          (s.FindWindowSlot hwnd).2 SavedWindowData.init).SetData env hwnd
            env.monitors).1).m_windowPlacement =
          (((s.FindWindowSlot hwnd).1._WindowData.getD
            (s.FindWindowSlot hwnd).2 SavedWindowData.init)).m_windowPlacement :=
        setData_out_of_range_buckets env _ hwnd env.monitors hm
      exact (set_preserves_buckets _ _ _ _ hb).trans (findSlot_buckets s hwnd i)
    · rfl
  · rfl

lemma foldl_saveCb_buckets (env : WinEnv)
    (hm : env.monitors < MIN_MONITORTORESTORE ∨ env.monitors > MAX_MONITORS) :
    ∀ (ws : List Nat) (s : InstanceData) (i : Nat),
      bucketsAt (ws.foldl (SaveWindowsCallback env) s) i = bucketsAt s i := by
  intro ws
  induction ws with
  | nil => intro s i; rfl
  | cons w rest ih =>
    intro s i
    rw [List.foldl_cons, ih, saveCb_buckets env s w i hm]

/-- C7: (1) the snapshot sweep is a no-op whenever the externally observed
monitor count differs from the store's `currentMonitorCount`; (2) while the
`transitioning` flag (`InChangingState`) is set, a window event schedules
no sweep (the system state is untouched); (3) a sweep at an out-of-range
monitor count — in particular the collapsed single-monitor configuration —
never writes any snapshot bucket of any record. -/
theorem C7_no_capture_mid_transition :
    (∀ (env : WinEnv) (s : InstanceData),
      env.monitors ≠ s._NumMonitors → ProcessDesktopWindows env s = s) ∧
    (∀ (env : WinEnv) (st : SysState) (hwnd dwEvent : Nat),
      st.inst.InChangingState = true →
      step env st (Event.winEvent hwnd dwEvent) = st) ∧
    (∀ (env : WinEnv) (s : InstanceData) (i : Nat),
      env.monitors < MIN_MONITORTORESTORE ∨ env.monitors > MAX_MONITORS →
      bucketsAt (ProcessDesktopWindows env s) i = bucketsAt s i) := by
  refine ⟨fun env s h => ?_, fun env st hwnd dwEvent h => ?_, fun env s i hm => ?_⟩
  · simp only [ProcessDesktopWindows, if_pos h]
  · simp only [step, if_pos h]
  · by_cases hblock : env.monitors ≠ s._NumMonitors
    · simp only [ProcessDesktopWindows, if_pos hblock]
    · simp only [ProcessDesktopWindows, if_neg hblock]
      rw [foldl_saveCb_buckets env hm, bucketsAt_tag]

/-- A system state in the middle of a display transition. -/
def stTrans : SysState :=
  { inst := { sThreeMon with InChangingState := true }
    saveTimerArmed := false
    restoreTimerArmed := true }

/-- A store that believes there is a single monitor. -/
def sOneMon : InstanceData :=
  { _WindowData := [dNotepad], _NumMonitors := 1, InChangingState := false }

/-- A single-monitor environment about to sweep window 9. -/
def envSweep : WinEnv := { envPlain with desktopWindows := [9] }

/-- C7 witness: the three parts at concrete inputs — a blocked sweep, an
ignored window event during a transition, and a bucket-preserving sweep at
monitor count 1. -/
theorem C7_witness :
    ProcessDesktopWindows envDecrease sThreeMon = sThreeMon ∧
    step envPlain stTrans (Event.winEvent 7 EVENT_OBJECT_LOCATIONCHANGE) =
      stTrans ∧
    bucketsAt (ProcessDesktopWindows envSweep sOneMon) 0 =
      bucketsAt sOneMon 0 :=
  ⟨C7_no_capture_mid_transition.1 envDecrease sThreeMon (by decide),
   C7_no_capture_mid_transition.2.1 envPlain stTrans 7
     EVENT_OBJECT_LOCATIONCHANGE (by decide),
   C7_no_capture_mid_transition.2.2 envSweep sOneMon 0 (Or.inl (by decide))⟩

end MonitorKeeper

namespace MonitorKeeper

/-! ### C8: cross-bucket geometry leak after slot reclamation -/

/-- The Calculator window's own geometry, distinct from `wpNormal`. -/
def wpCalc : WINDOWPLACEMENT :=
  { length := 0, flags := 0, showCmd := SW_NORMAL
    ptMinPosition := ⟨0, 0⟩, ptMaxPosition := ⟨0, 0⟩
    rcNormalPosition := ⟨500, 500, 800, 800⟩ }

/-- An environment where handle 7 is a "Notepad" window with geometry
`wpNormal` and every other handle (in particular 9) is a "Calculator"
window with geometry `wpCalc`. -/
def envAB : WinEnv :=
  { windowClass := fun h => if h = 7 then "Notepad" else "Calculator"
    windowPlacement := fun h => if h = 7 then wpNormal else wpCalc
    isWindow := fun _ => true
    isWindowVisible := fun _ => true
    getParent := fun _ => 0
    style := fun _ => WS_OVERLAPPEDWINDOW
    exStyle := fun _ => 0
    desktopWindows := []
    monitors := 2 }

/-- The record after capturing Notepad (handle 7) at 3 monitors. -/
def dA : SavedWindowData := ((SavedWindowData.init).SetData envAB 7 3).1

/-- The store after Notepad went unobserved for 3 sweeps (reclaimable). -/
def sStale : InstanceData :=
  { _WindowData := [{ dA with m_nUnusedCount := 3 }]
    _NumMonitors := 2
    InChangingState := false }

/-- The record after the reclaimed slot captures Calculator (handle 9) at
2 monitors. -/
def dB : SavedWindowData :=
  (((sStale.FindWindowSlot 9).1._WindowData.getD (sStale.FindWindowSlot 9).2
      SavedWindowData.init).SetData envAB 9 2).1

/-- C8: reclaiming a slot does not clear the previous occupant's snapshot
buckets; capture overwrites only the current bucket and the class tag, so
a later restore for a different bucket (3 monitors) passes the class-tag
check — `classTag` now says "Calculator" — and applies the PREVIOUS
window's (Notepad's) saved geometry to the new window. -/
theorem C8_cross_bucket_leak :
    sStale.FindWindowSlot 9 = (sStale, 0) ∧
    dB.m_hwnd = 9 ∧
    dB.m_wndClass = "Calculator" ∧
    dB.m_windowPlacement.getD 1 uninitPlacement = wpNormal ∧
    (dB.RestoreWindow envAB 3).2 =
      [(9, { wpNormal with flags := WPF_ASYNCWINDOWPLACEMENT
                           showCmd := SW_SHOWNOACTIVATE })] ∧
    wpNormal.rcNormalPosition ≠ wpCalc.rcNormalPosition := by decide

end MonitorKeeper
